import Mathlib

/-!
Verification of `scrapeSchoolData.py` (School-Data-Scraper).

The Python program is shallowly embedded: documents are records of the
queries the code performs on them (BeautifulSoup collaborator), the HTTP
transport is a parameter (`FetchResult` / functions returning `Option`),
and the pandas table is a function from URL to the two extracted columns.
Python string/int primitives are modelled on the character sets and value
shapes this program actually uses.
-/

/-- Python `str.lower` on a single character, restricted to ASCII letters and
the Turkish uppercase letters Ö Ü Ç Ş Ğ that occur in this program's string
literals and inputs.  (Characters outside this set are left unchanged.) -/
def pyCharLower (c : Char) : Char :=
  if c = 'Ö' then 'ö'
  else if c = 'Ü' then 'ü'
  else if c = 'Ç' then 'ç'
  else if c = 'Ş' then 'ş'
  else if c = 'Ğ' then 'ğ'
  else Char.toLower c

/-- Python `str.lower`, character-wise via `pyCharLower`. -/
def pyLower (s : String) : String :=
  List.asString (s.toList.map pyCharLower)

/-- Python whitespace characters recognised by `str.strip()`. -/
def isPySpace (c : Char) : Bool :=
  c = ' ' || c = '\t' || c = '\n' || c = '\r' || c = '\x0b' || c = '\x0c'

/-- Python `str.strip()`: drop whitespace from both ends. -/
def pyStrip (s : String) : String :=
  List.asString (((s.toList.dropWhile isPySpace).reverse.dropWhile isPySpace).reverse)

/-- Contiguous-sublist test on character lists (Python's `in` on strings). -/
def hasSub (pat : List Char) : List Char → Bool
  | [] => pat.isEmpty
  | c :: t => List.isPrefixOf pat (c :: t) || hasSub pat t

/-- Python `pat in s` substring containment. -/
def pyContains (s pat : String) : Bool :=
  hasSub pat.toList s.toList

/-- Value of a nonempty all-ASCII-digit character list. -/
def digitsVal : List Char → Option Nat
  | [] => none
  | cs =>
      if cs.all Char.isDigit then
        some (cs.foldl (fun a c => a * 10 + (c.toNat - 48)) 0)
      else none

/-- Python `int(s.strip())` as used by this program: optional sign followed by
ASCII digits yields the integer, anything else raises `ValueError` (`none`).
(Underscore separators and non-ASCII digits, which never occur in this
program's inputs, are not modelled.) -/
def pyInt (s : String) : Option Int :=
  match (pyStrip s).toList with
  | '-' :: rest => (digitsVal rest).map (fun n => -(n : Int))
  | '+' :: rest => (digitsVal rest).map (fun n => (n : Int))
  | cs => (digitsVal cs).map (fun n => (n : Int))

/-- Python `s.split(":")` over character lists (single-character separator):
split into the (always nonempty) list of chunks between colons. -/
def splitOnColon (cs : List Char) : List (List Char) :=
  cs.foldr
    (fun c acc =>
      match acc with
      | [] => [[c]]
      | h :: t => if c = ':' then [] :: h :: t else (c :: h) :: t)
    [[]]

/-- Python `s.split(":")[-1]`: the chunk after the last colon (the whole
string when there is no colon). -/
def splitColonLast (s : String) : String :=
  List.asString ((splitOnColon s.toList).getLastD [])

/-- One `<tr>` table row, as the list of its `<td>` cell texts. -/
structure Row where
  cells : List String
deriving DecidableEq

/-- A parsed page, recording exactly the queries `scrapeSchoolData.py` makes
on a BeautifulSoup document: the whole-body text (`soup.text`), the texts of
nodes with class `okulumuz-sayi`, the `<tr>` rows with their `<td>` cells,
the texts of `div.col-sm-4` nodes, and the `href` values of `<a href=...>`
anchors. -/
structure Document where
  bodyText : String
  okulumuzSayi : List String
  tableRows : List Row
  colSm4Divs : List String
  hrefs : List String
deriving DecidableEq

/-- Outcome of `session.get` + `raise_for_status` for one page: a parsed
document, or a `requests.RequestException` (transport error or non-2xx). -/
inductive FetchResult where
  | ok (doc : Document)
  | err
deriving DecidableEq

/-- The record returned by both scraping functions:
`{"WEB_ADRES": url, "Öğrenci Sayısı": ..., "Öğretim Şekli": ...}`. -/
structure ScrapeResult where
  webAdres : String
  ogrenci : Option Int
  ogretimSekli : Option String
deriving DecidableEq

/-- The "site is down" marker phrase checked against `soup.text`. -/
def hostingUnavailableMarker : String :=
  "adresi sunucularımız üzerinde barındırılmamaktadır"

/-- The assignment discipline of the extraction loops: a successful
attempt overwrites the accumulator, a failed one leaves it. -/
def keepLast {β : Type} (acc v : Option β) : Option β :=
  match v with
  | some b => some b
  | none => acc

/-- One step of the `okulumuz-sayi` loop: `number = int(tag.text.strip())`
overwrites `öğrenci` on success, `ValueError` falls through (`continue`). -/
def tag_step (acc : Option Int) (tagText : String) : Option Int :=
  keepLast acc (pyInt tagText)

/-- The value a `<tr>` row contributes: exactly 3 cells, first cell's
lowercased text contains "öğrenci sayısı" or "öğrenci", third cell parses
as an integer. -/
def row_value (row : Row) : Option Int :=
  match row.cells with
  | [c0, _, c2] =>
      if pyContains (pyLower c0) "öğrenci sayısı" || pyContains (pyLower c0) "öğrenci" then
        pyInt c2
      else none
  | _ => none

/-- One step of the table-row loop: a matching row with a parseable third
cell overwrites `öğrenci`; otherwise (`ValueError` or no match) it is kept. -/
def row_step (acc : Option Int) (row : Row) : Option Int :=
  keepLast acc (row_value row)

/-- The value a `div.col-sm-4` contributes: if its lowercased text contains
"öğretim şekli", the substring after the last colon, stripped. -/
def div_value (divText : String) : Option String :=
  if pyContains (pyLower divText) "öğretim şekli" then
    some (pyStrip (splitColonLast divText))
  else none

/-- One step of the `col-sm-4` loop in `scrape_page_for_data`: a matching
div overwrites `öğretim_şekli` (the loop has no break). -/
def div_step (acc : Option String) (divText : String) : Option String :=
  keepLast acc (div_value divText)

/-- `scrape_page_for_data(url, session)` (lines 48-93): on a transport error
both fields are `None`; if the body contains the hosting-unavailable marker,
return immediately with both fields `None`; otherwise run the `okulumuz-sayi`
loop, then the table-row loop (both updating `öğrenci`), then the
`col-sm-4` loop (updating `öğretim_şekli`). -/
def scrape_page_for_data (url : String) (fetch : FetchResult) : ScrapeResult :=
  match fetch with
  | .err => ⟨url, none, none⟩
  | .ok doc =>
      if pyContains doc.bodyText hostingUnavailableMarker then
        ⟨url, none, none⟩
      else
        let o1 := doc.okulumuzSayi.foldl tag_step none
        let o2 := doc.tableRows.foldl row_step o1
        let m := doc.colSm4Divs.foldl div_step none
        ⟨url, o2, m⟩

/-- A page as queried during link discovery: the `href` values of its
anchors. -/
structure Page where
  hrefs : List String
deriving DecidableEq

/-- The keyword allow-list of `gather_relevant_links` (line 100). -/
def keywords : List String :=
  ["okulumuz_hakkinda", "hakkimizda", "hakkinda", "istatistikler"]

/-- `s.startsWith p` over character lists. -/
def strStarts (s p : String) : Bool :=
  List.isPrefixOf p.toList s.toList

/-- Python `urljoin(f'http://{base_url}', href)` for a base of the form
`http://host` with empty path, modelled for the href shapes this program
meets: absolute URLs, protocol-relative, fragment/query references,
root-relative paths and plain relative paths. -/
def pyUrljoin (base href : String) : String :=
  if strStarts href "http://" || strStarts href "https://" then href
  else if strStarts href "//" then "http:" ++ href
  else if strStarts href "#" || strStarts href "?" then "http://" ++ base ++ href
  else if strStarts href "/" then "http://" ++ base ++ href
  else if href = "" then "http://" ++ base
  else "http://" ++ base ++ "/" ++ href

/-- `relevant_links.add(full_url)`: set insertion, modelled on lists as
append-if-absent (so the final `list(relevant_links)` has no duplicates). -/
def setInsert (x : String) (s : List String) : List String :=
  if x ∈ s then s else s ++ [x]

/-- The inner `for link in links` body of `gather_relevant_links`
(lines 114-118): resolve each href against the base and keep it when its
lowercased URL contains some allow-list keyword. -/
def addRelevant (base : String) (relevant : List String) (hrefs : List String) : List String :=
  hrefs.foldl
    (fun acc href =>
      let full := pyUrljoin base href
      if keywords.any (fun k => pyContains (pyLower full) k) then setInsert full acc
      else acc)
    relevant

/-- The `while urls_to_visit` loop of `gather_relevant_links`
(lines 102-121).  State: queue of URLs to visit, visited set, relevant set.
Nothing is ever appended to the queue, so the loop is structural recursion
on it.  Besides the relevant set the model returns the list of URLs actually
fetched (each `session.get`, successful or raising). -/
def gather_loop (fetch : String → Option Page) (base : String) :
    List String → List String → List String → List String → List String × List String
  | [], _, relevant, fetched => (relevant, fetched)
  | u :: rest, visited, relevant, fetched =>
      if u ∈ visited then gather_loop fetch base rest visited relevant fetched
      else
        match fetch u with
        | none => gather_loop fetch base rest (visited ++ [u]) relevant (fetched ++ [u])
        | some page =>
            gather_loop fetch base rest (visited ++ [u])
              (addRelevant base relevant page.hrefs) (fetched ++ [u])

/-- `gather_relevant_links(base_url, session)` (lines 96-123): start from
`http://{base_url}`, return `(base_url, list(relevant_links))`. -/
def gather_relevant_links (fetch : String → Option Page) (base_url : String) :
    String × List String :=
  (base_url, (gather_loop fetch base_url ["http://" ++ base_url] [] [] []).1)

/-- The URLs fetched by a `gather_relevant_links` run. -/
def gather_fetched (fetch : String → Option Page) (base_url : String) : List String :=
  (gather_loop fetch base_url ["http://" ++ base_url] [] [] []).2

/-- The inner `for div in specific_divs` loop of `scrape_from_links`
(lines 140-144): unlike phase 1 it breaks at the first match, so it yields
the first matching div's value. -/
def first_mode_div (doc : Document) : Option String :=
  match doc.colSm4Divs.find? (fun d => pyContains (pyLower d) "öğretim şekli") with
  | some d => some (pyStrip (splitColonLast d))
  | none => none

/-- The `for link in links` loop of `scrape_from_links` (lines 130-147):
break as soon as `öğretim_şekli` is set; a transport error on one link is
caught and the loop continues; `öğrenci` is threaded through unchanged
(the function never assigns it). -/
def scrape_links_loop (fetch : String → Option Document) (base_url : String)
    (ogrenci : Option Int) (ogretim_sekli : Option String) :
    List String → ScrapeResult
  | [] => ⟨base_url, ogrenci, ogretim_sekli⟩
  | link :: rest =>
      if ogretim_sekli.isSome then ⟨base_url, ogrenci, ogretim_sekli⟩
      else
        match fetch link with
        | none => scrape_links_loop fetch base_url ogrenci ogretim_sekli rest
        | some doc =>
            scrape_links_loop fetch base_url ogrenci
              (match first_mode_div doc with
               | some v => some v
               | none => ogretim_sekli) rest

/-- `scrape_from_links(base_url, links, session)` (lines 126-149):
`öğrenci = None`, `öğretim_şekli = None`, then the link loop. -/
def scrape_from_links (fetch : String → Option Document) (base_url : String)
    (links : List String) : ScrapeResult :=
  scrape_links_loop fetch base_url none none links

/-- The shared result-record filter of the Step 2 and Step 4 loops
(lines 158 and 186): keep a record iff some field is not `None`.
(The `data and ...` guard is equivalent: the returned dict is never falsy.) -/
def keepR (d : ScrapeResult) : Bool :=
  d.ogrenci.isSome || d.ogretimSekli.isSome

/-- The pandas dataframe restricted to what the program reads and writes:
for each `WEB_ADRES` the two columns `Öğrenci Sayısı` and `Öğretim Şekli`. -/
abbrev Table := String → Option Int × Option String

/-- `df.loc[df['WEB_ADRES'] == url, ['Öğrenci Sayısı', 'Öğretim Şekli']] = og, sek`
(lines 160 and 188): both columns of the matching row are assigned. -/
def table_update (t : Table) (url : String) (og : Option Int) (sek : Option String) : Table :=
  fun u => if u = url then (og, sek) else t u

/-- One result folded into the dataframe as both phase loops do
(lines 158-160 and 186-188): if the record passes the keep filter, assign
both columns of its row; otherwise leave the table unchanged. -/
def merge_result (df : Table) (d : ScrapeResult) : Table :=
  if keepR d then table_update df d.webAdres d.ogrenci d.ogretimSekli else df

/-- The construction of `landing_page_data` (lines 156-159): the phase-1
results that pass the keep filter, in completion order. -/
def landing_filter (rs : List ScrapeResult) : List ScrapeResult :=
  rs.filter keepR

/-- `urls_to_fully_scrape` (line 170): the kept phase-1 records with some
field still `None`. -/
def urls_to_fully_scrape (landing : List ScrapeResult) : List String :=
  (landing.filter (fun d => d.ogrenci.isNone || d.ogretimSekli.isNone)).map
    (fun d => d.webAdres)

/-- One iteration of the accumulation-plus-backup pattern shared by the
Step 2 and Step 4 loops (lines 156-167 and 183-201): append the record if
it passes the keep filter, then, whenever the accumulated count is
divisible by 50, write a backup snapshot of the whole accumulated list. -/
def accumulate_step (st : List ScrapeResult × List (List ScrapeResult))
    (d : ScrapeResult) : List ScrapeResult × List (List ScrapeResult) :=
  let acc := if keepR d then st.1 ++ [d] else st.1
  if acc.length % 50 = 0 then (acc, st.2 ++ [acc]) else (acc, st.2)

/-- Run one phase's accumulation loop over its results in completion order;
returns the accumulated list and the backup snapshots written, oldest
first. -/
def phase_accumulate (rs : List ScrapeResult) :
    List ScrapeResult × List (List ScrapeResult) :=
  rs.foldl accumulate_step ([], [])

/-- Configuration of `urllib3.util.retry.Retry` as built by
`create_session` (lines 35-45). -/
structure RetryConfig where
  total : Nat
  backoffFactorTenths : Nat
  status_forcelist : List Nat
deriving DecidableEq

/-- `create_session()`: `Retry(total=3, backoff_factor=0.3,
status_forcelist=[500, 502, 503, 504])` (backoff factor stored in tenths). -/
def create_session : RetryConfig :=
  ⟨3, 3, [500, 502, 503, 504]⟩

/-- Outcome of one low-level HTTP attempt. -/
inductive AttemptOutcome where
  | status (code : Nat)
  | connError
deriving DecidableEq

/-- Modelled urllib3 `Retry` semantics (external collaborator, per its
documentation): `total` counts *retries*, so up to `total + 1` attempts are
made.  An attempt yielding a status outside the forcelist is delivered as
the response (even 4xx — `raise_for_status` is the caller's separate step);
a forcelist status or connection error consumes a retry, and when no
retries remain the fetch fails (`MaxRetryError`).  The transport maps the
0-based attempt index to its outcome.  Returns the delivered status (or
`none` on failure) and the number of attempts made. -/
def retry_loop (cfg : RetryConfig) (transport : Nat → AttemptOutcome) :
    Nat → Option Nat × Nat
  | 0 =>
      let idx := cfg.total
      match transport idx with
      | .status c =>
          if cfg.status_forcelist.contains c then (none, idx + 1) else (some c, idx + 1)
      | .connError => (none, idx + 1)
  | r + 1 =>
      let idx := cfg.total - (r + 1)
      match transport idx with
      | .status c =>
          if cfg.status_forcelist.contains c then retry_loop cfg transport r
          else (some c, idx + 1)
      | .connError => retry_loop cfg transport r

/-- One `session.get` through the retry adapter mounted by
`create_session`. -/
def session_get (transport : Nat → AttemptOutcome) : Option Nat × Nat :=
  retry_loop create_session transport create_session.total

/-- The claim's first-valid-match-wins semantics for the enrollment field,
written from the spec's words for comparison with the code: the first rule
(marker-class nodes before table rows) whose first candidate yields a valid
parse provides the value, and nothing later overrides it. -/
def spec_first_enrollment (doc : Document) : Option Int :=
  match doc.okulumuzSayi.findSome? pyInt with
  | some n => some n
  | none => doc.tableRows.findSome? row_value

/-- The snapshots the backup logic writes while the accumulated count runs
from `start + 1` to `start + n`: one snapshot per count divisible by 50,
holding the prefix of the final accumulated list at that count, oldest
first. -/
def snapshotsFrom (full : List ScrapeResult) (start n : Nat) : List (List ScrapeResult) :=
  (List.range n).filterMap
    (fun j => if (start + j + 1) % 50 = 0 then some (full.take (start + j + 1)) else none)

/-- A phase-1 result with a found field, and one with neither field found
(filtered out by line 158 but still reaching the line-164 backup check). -/
def goodR : ScrapeResult := ⟨"okul1.meb.k12.tr", some 450, none⟩

/-- A result with both fields `None`: processed, but never accumulated. -/
def badR : ScrapeResult := ⟨"okul2.meb.k12.tr", none, none⟩

/-- C5: for every document whose body text contains the fixed
hosting-unavailable marker phrase, `scrape_page_for_data` returns both
fields `None` without running any extraction rule: the output is the
all-`None` record whatever the rest of the document holds. -/
theorem hosting_unavailable_short_circuit (url : String) (doc : Document)
    (h : pyContains doc.bodyText hostingUnavailableMarker = true) :
    scrape_page_for_data url (FetchResult.ok doc) = ⟨url, none, none⟩ := by
  simp [scrape_page_for_data, h]

theorem hosting_unavailable_short_circuit_witness :
    pyContains "bu adresi sunucularımız üzerinde barındırılmamaktadır"
        hostingUnavailableMarker = true
    ∧ scrape_page_for_data "okul.meb.k12.tr"
        (FetchResult.ok
          ⟨"bu adresi sunucularımız üzerinde barındırılmamaktadır", ["450"],
            [⟨["Öğrenci Sayısı", "-", "312"]⟩], ["Öğretim Şekli : Normal"], []⟩)
        = ⟨"okul.meb.k12.tr", none, none⟩ :=
  ⟨by decide, hosting_unavailable_short_circuit "okul.meb.k12.tr" _ (by decide)⟩

/-- C7: a document whose only content is the table row
`["Öğrenci Sayısı", "-", "312"]` yields enrollment 312; the same row with
third cell `"abc"` yields `None` for enrollment (the `ValueError` is caught
and skipped, the function still returns a record). -/
theorem table_row_extraction_and_parse_skip :
    scrape_page_for_data "okul.meb.k12.tr"
        (FetchResult.ok ⟨"", [], [⟨["Öğrenci Sayısı", "-", "312"]⟩], [], []⟩)
      = ⟨"okul.meb.k12.tr", some 312, none⟩
    ∧ scrape_page_for_data "okul.meb.k12.tr"
        (FetchResult.ok ⟨"", [], [⟨["Öğrenci Sayısı", "-", "abc"]⟩], [], []⟩)
      = ⟨"okul.meb.k12.tr", none, none⟩ := by decide

/-- C1: a concrete run violating the monotonic-resolution invariant.
Phase 1 resolves enrollment = 450 (instruction mode missing), so the
target's row holds `(some 450, none)` and the target is fed to phase 2
(line 170).  Phase 2 finds instruction mode "Normal"; `scrape_from_links`
always returns `None` for enrollment, and the merge at line 188 assigns
both columns, so the row becomes `(none, some "Normal")`: the enrollment
resolved in phase 1 is overwritten with null. -/
theorem phase2_merge_overwrites_phase1_enrollment :
    scrape_page_for_data "okul.meb.k12.tr" (FetchResult.ok ⟨"", ["450"], [], [], []⟩)
      = ⟨"okul.meb.k12.tr", some 450, none⟩
    ∧ merge_result (fun _ => (none, none))
        (scrape_page_for_data "okul.meb.k12.tr" (FetchResult.ok ⟨"", ["450"], [], [], []⟩))
        "okul.meb.k12.tr" = (some 450, none)
    ∧ urls_to_fully_scrape (landing_filter
        [scrape_page_for_data "okul.meb.k12.tr" (FetchResult.ok ⟨"", ["450"], [], [], []⟩)])
        = ["okul.meb.k12.tr"]
    ∧ scrape_from_links (fun _ => some ⟨"", [], [], ["Öğretim Şekli : Normal"], []⟩)
        "okul.meb.k12.tr" ["http://okul.meb.k12.tr/hakkimizda"]
      = ⟨"okul.meb.k12.tr", none, some "Normal"⟩
    ∧ merge_result
        (merge_result (fun _ => (none, none))
          (scrape_page_for_data "okul.meb.k12.tr" (FetchResult.ok ⟨"", ["450"], [], [], []⟩)))
        (scrape_from_links (fun _ => some ⟨"", [], [], ["Öğretim Şekli : Normal"], []⟩)
          "okul.meb.k12.tr" ["http://okul.meb.k12.tr/hakkimizda"])
        "okul.meb.k12.tr" = (none, some "Normal") := by
  refine ⟨by decide, by decide, by decide, by decide, by decide⟩

/-- C2 counterexample: a phase-1 result with neither field found is dropped
by the line-158 filter and therefore absent from `urls_to_fully_scrape`,
while a result with one field found (spec: Resolved, terminal) is fed to
phase 2. -/
theorem phase2_input_cex :
    urls_to_fully_scrape (landing_filter [⟨"a.meb.k12.tr", none, none⟩]) = []
    ∧ urls_to_fully_scrape (landing_filter [⟨"b.meb.k12.tr", some 450, none⟩])
        = ["b.meb.k12.tr"] := by decide

/-- C2 amended: the set fed to phase-2 link discovery is exactly the
phase-1 results with at least one field found *and* at least one field
missing (in order); targets with neither field found never reach phase 2. -/
theorem phase2_input_characterisation (rs : List ScrapeResult) :
    urls_to_fully_scrape (landing_filter rs)
      = (rs.filter (fun d => (d.ogrenci.isNone || d.ogretimSekli.isNone) && keepR d)).map
          (fun d => d.webAdres) := by
  unfold urls_to_fully_scrape landing_filter
  rw [List.filter_filter]

/-- C6 counterexample: `Retry(total=3)` allows three *retries*, hence up to
four attempts; a transport failing with 503 three times and then serving
200 makes the fetch succeed on its fourth attempt, contradicting "at most
3 attempts in total". -/
theorem retry_attempts_cex :
    ¬ ∀ transport : Nat → AttemptOutcome, (session_get transport).2 ≤ 3 := fun h =>
  absurd (h (fun i => if i < 3 then .status 503 else .status 200)) (by decide)

/-- Attempts made by the retry loop never exceed `total + 1`. -/
theorem retry_loop_attempts_le (cfg : RetryConfig) (transport : Nat → AttemptOutcome) :
    ∀ remaining : Nat, (retry_loop cfg transport remaining).2 ≤ cfg.total + 1 := by
  intro remaining
  induction remaining with
  | zero =>
      simp only [retry_loop]
      split
      · split <;> simp
      · simp
  | succ r ih =>
      simp only [retry_loop]
      split
      · split
        · exact ih
        · exact Nat.succ_le_succ (Nat.sub_le _ _)
      · exact ih

/-- C6 amended: the session retries only on 500/502/503/504 or connection
failures with configured backoff factor 0.3 (three tenths), makes at most
4 attempts in total (1 initial + up to 3 retries); a transport serving 503
twice then 200 succeeds after exactly 2 retries (3 attempts); a 404 is
delivered after 1 attempt with zero retries (its failure is
`raise_for_status`, outside the retry layer); three 503s then 200 succeeds
on the 4th attempt; four 503s exhaust the retries. -/
theorem retry_policy_characterisation :
    create_session = ⟨3, 3, [500, 502, 503, 504]⟩
    ∧ (∀ transport : Nat → AttemptOutcome, (session_get transport).2 ≤ 4)
    ∧ session_get (fun i => if i < 2 then .status 503 else .status 200) = (some 200, 3)
    ∧ session_get (fun _ => .status 404) = (some 404, 1)
    ∧ session_get (fun i => if i < 3 then .status 503 else .status 200) = (some 200, 4)
    ∧ session_get (fun _ => .status 503) = (none, 4) := by
  refine ⟨rfl, ?_, by decide, by decide, by decide, by decide⟩
  intro transport
  exact retry_loop_attempts_le create_session transport create_session.total

/-- Once `öğretim_şekli` is set, the `scrape_from_links` loop breaks at
once, whatever links remain. -/
theorem scrape_links_loop_break (fetch : String → Option Document) (base_url : String)
    (og : Option Int) (v : String) (links : List String) :
    scrape_links_loop fetch base_url og (some v) links = ⟨base_url, og, some v⟩ := by
  cases links <;> simp [scrape_links_loop]

/-- Running the `scrape_from_links` loop with `öğretim_şekli` unset yields
`öğrenci` unchanged and the first instruction-mode value found over the
links in order. -/
theorem scrape_links_loop_eq (fetch : String → Option Document) (base_url : String)
    (og : Option Int) :
    ∀ links : List String,
      scrape_links_loop fetch base_url og none links
        = ⟨base_url, og, links.findSome? (fun link => (fetch link).bind first_mode_div)⟩ := by
  intro links
  induction links with
  | nil => simp [scrape_links_loop]
  | cons l rest ih =>
      simp only [scrape_links_loop, Option.isSome_none, Bool.false_eq_true, if_false,
        List.findSome?_cons]
      cases h : fetch l with
      | none => simpa [h] using ih
      | some doc =>
          cases h2 : first_mode_div doc with
          | none => simpa [h, h2] using ih
          | some v => simp [h, h2, scrape_links_loop_break]

/-- C9: for every base URL, candidate-link list and transport behaviour,
`scrape_from_links` leaves the enrollment field `None` (the function never
assigns `öğrenci`, so the enrollment branch is trivially never reached) and
resolves only instruction mode, as the first value found over the links in
order — the loop breaking as soon as it is set. -/
theorem scrape_from_links_only_instruction_mode (fetch : String → Option Document)
    (base_url : String) (links : List String) :
    (scrape_from_links fetch base_url links).ogrenci = none
    ∧ (scrape_from_links fetch base_url links).webAdres = base_url
    ∧ (scrape_from_links fetch base_url links).ogretimSekli
        = links.findSome? (fun link => (fetch link).bind first_mode_div) := by
  unfold scrape_from_links
  rw [scrape_links_loop_eq]
  exact ⟨rfl, rfl, rfl⟩

/-- C10: `gather_relevant_links` fetches exactly one URL — the seed
`http://{base_url}` — for every transport behaviour and page content,
because the loop never appends to `urls_to_visit`. -/
theorem gather_fetches_exactly_seed (fetch : String → Option Page) (base_url : String) :
    gather_fetched fetch base_url = ["http://" ++ base_url] := by
  unfold gather_fetched
  cases h : fetch ("http://" ++ base_url) <;> simp [gather_loop, h]

/-- C3 counterexample: on a document with marker-class nodes "100", "200"
and a matching table row "312", the first valid match is 100, but the code
returns 312 — the later node overrides 100 within the first rule, and the
table-row rule overrides the marker-class rule. -/
theorem rule_order_cex :
    spec_first_enrollment ⟨"", ["100", "200"], [⟨["Öğrenci Sayısı", "-", "312"]⟩], [], []⟩
      = some 100
    ∧ (scrape_page_for_data "okul.meb.k12.tr"
        (FetchResult.ok ⟨"", ["100", "200"], [⟨["Öğrenci Sayısı", "-", "312"]⟩], [], []⟩)).ogrenci
      = some 312 := by decide

/-- A fold that overwrites its accumulator with every `some` computes the
*last* valid value, i.e. the first valid value of the reversed list. -/
theorem foldl_last_wins {α β : Type} (f : α → Option β) :
    ∀ (l : List α) (init : Option β),
      l.foldl (fun acc x => keepLast acc (f x)) init
        = keepLast init (l.reverse.findSome? f) := by
  intro l
  induction l with
  | nil => intro init; simp [keepLast]
  | cons x t ih =>
      intro init
      rw [List.foldl_cons, ih, List.reverse_cons, List.findSome?_append]
      cases h : t.reverse.findSome? f with
      | some v => simp [keepLast, Option.or_some]
      | none =>
          simp only [Option.none_or, List.findSome?_cons]
          cases h2 : f x <;> simp [keepLast]

/-- C3 amended: within one invocation of `scrape_page_for_data`,
last valid match wins for each field — the enrollment value is the last
valid parse over the table rows, falling back to the last valid parse over
the marker-class nodes (so a later rule, and a later node within a rule,
*does* override an earlier value), and the instruction mode is the last
matching `col-sm-4` div. -/
theorem scrape_page_last_match_wins (url : String) (doc : Document) :
    scrape_page_for_data url (FetchResult.ok doc)
      = if pyContains doc.bodyText hostingUnavailableMarker then ⟨url, none, none⟩
        else
          ⟨url,
            match doc.tableRows.reverse.findSome? row_value with
            | some n => some n
            | none => doc.okulumuzSayi.reverse.findSome? pyInt,
            doc.colSm4Divs.reverse.findSome? div_value⟩ := by
  have e1 : tag_step = fun (acc : Option Int) x => keepLast acc (pyInt x) := rfl
  have e2 : row_step = fun (acc : Option Int) x => keepLast acc (row_value x) := rfl
  have e3 : div_step = fun (acc : Option String) x => keepLast acc (div_value x) := rfl
  by_cases h : pyContains doc.bodyText hostingUnavailableMarker
  · simp [scrape_page_for_data, h]
  · simp only [scrape_page_for_data]
    rw [if_neg h, if_neg h]
    rw [e1, foldl_last_wins, e2, foldl_last_wins, e3, foldl_last_wins]
    cases doc.tableRows.reverse.findSome? row_value <;>
      cases doc.okulumuzSayi.reverse.findSome? pyInt <;>
        cases doc.colSm4Divs.reverse.findSome? div_value <;> rfl

/-- Set-insertion membership: an element is in `setInsert x s` iff it is
`x` or already in `s`. -/
theorem mem_setInsert (x u : String) (s : List String) :
    u ∈ setInsert x s ↔ u ∈ s ∨ u = x := by
  unfold setInsert
  by_cases h : x ∈ s
  · simp only [h, if_true]
    constructor
    · exact Or.inl
    · rintro (hu | rfl) <;> assumption
  · simp [h]

/-- Set insertion preserves distinctness. -/
theorem nodup_setInsert (x : String) (s : List String) (h : s.Nodup) :
    (setInsert x s).Nodup := by
  unfold setInsert
  by_cases hx : x ∈ s
  · simpa [hx] using h
  · simp [hx, List.nodup_append, h, List.disjoint_singleton]

/-- Membership in the relevant-link accumulator: a URL is collected iff it
was already present or is the resolution of some href whose lowercased
resolved URL contains an allow-list keyword. -/
theorem mem_addRelevant (base : String) :
    ∀ (hrefs acc : List String) (u : String),
      u ∈ addRelevant base acc hrefs
        ↔ u ∈ acc
          ∨ ∃ href ∈ hrefs,
              pyUrljoin base href = u
              ∧ keywords.any (fun k => pyContains (pyLower (pyUrljoin base href)) k) = true := by
  intro hrefs
  induction hrefs with
  | nil => simp [addRelevant]
  | cons hrf t ih =>
      intro acc u
      have step : addRelevant base acc (hrf :: t)
          = addRelevant base
              (if keywords.any (fun k => pyContains (pyLower (pyUrljoin base hrf)) k) then
                setInsert (pyUrljoin base hrf) acc
               else acc) t := rfl
      rw [step, ih]
      by_cases hc : keywords.any (fun k => pyContains (pyLower (pyUrljoin base hrf)) k) = true
      · simp only [hc, if_true, mem_setInsert, List.exists_mem_cons_iff]
        constructor
        · rintro ((hu | rfl) | hex)
          · exact Or.inl hu
          · exact Or.inr (Or.inl ⟨rfl, trivial⟩)
          · exact Or.inr (Or.inr hex)
        · rintro (hu | (⟨rfl, _⟩ | hex))
          · exact Or.inl (Or.inl hu)
          · exact Or.inl (Or.inr rfl)
          · exact Or.inr hex
      · simp only [hc, if_false, List.exists_mem_cons_iff, Bool.false_eq_true]
        constructor
        · rintro (hu | hex)
          · exact Or.inl hu
          · exact Or.inr (Or.inr hex)
        · rintro (hu | (⟨rfl, hk⟩ | hex))
          · exact Or.inl hu
          · exact hk.elim
          · exact Or.inr hex

/-- The relevant-link accumulator never introduces duplicates. -/
theorem nodup_addRelevant (base : String) :
    ∀ (hrefs acc : List String), acc.Nodup → (addRelevant base acc hrefs).Nodup := by
  intro hrefs
  induction hrefs with
  | nil => intro acc h; simpa [addRelevant] using h
  | cons hrf t ih =>
      intro acc h
      have step : addRelevant base acc (hrf :: t)
          = addRelevant base
              (if keywords.any (fun k => pyContains (pyLower (pyUrljoin base hrf)) k) then
                setInsert (pyUrljoin base hrf) acc
               else acc) t := rfl
      rw [step]
      by_cases hc : keywords.any (fun k => pyContains (pyLower (pyUrljoin base hrf)) k) = true
      · simp only [hc, if_true]
        exact ih _ (nodup_setInsert _ _ h)
      · simp only [hc, if_false, Bool.false_eq_true]
        exact ih _ h

/-- A discovery run whose seed fetch yields `page` collects exactly the
links of that one page. -/
theorem gather_single (fetch : String → Option Page) (base : String) (page : Page)
    (h : fetch ("http://" ++ base) = some page) :
    gather_relevant_links fetch base = (base, addRelevant base [] page.hrefs) := by
  unfold gather_relevant_links
  simp [gather_loop, h]

/-- C8: discovery returns exactly the hyperlink targets of the fetched
page, resolved to absolute URLs, whose lowercased URL contains an
allow-list keyword, with no URL repeated; on the concrete seed page with
links `/hakkimizda`, `/contact`, `/istatistikler/2020` (the first linked
twice) it returns exactly the first and third, once each. -/
theorem gather_links_keyword_filter (base : String) (page : Page) :
    (∀ u, u ∈ (gather_relevant_links (fun _ => some page) base).2
        ↔ ∃ href ∈ page.hrefs,
            pyUrljoin base href = u
            ∧ keywords.any (fun k => pyContains (pyLower (pyUrljoin base href)) k) = true)
    ∧ (gather_relevant_links (fun _ => some page) base).2.Nodup
    ∧ (gather_relevant_links
        (fun _ => some ⟨["/hakkimizda", "/contact", "/istatistikler/2020", "/hakkimizda"]⟩)
        "okul.meb.k12.tr").2
      = ["http://okul.meb.k12.tr/hakkimizda", "http://okul.meb.k12.tr/istatistikler/2020"] := by
  have hrun : gather_relevant_links (fun _ => some page) base
      = (base, addRelevant base [] page.hrefs) := gather_single _ base page rfl
  refine ⟨?_, ?_, by decide⟩
  · intro u
    rw [hrun]
    simpa using mem_addRelevant base page.hrefs [] u
  · rw [hrun]
    exact nodup_addRelevant base page.hrefs [] List.nodup_nil

/-- Peeling one processed result off the snapshot schedule. -/
theorem snapshotsFrom_succ (full : List ScrapeResult) (start n : Nat) :
    snapshotsFrom full start (n + 1)
      = (if (start + 1) % 50 = 0 then [full.take (start + 1)] else [])
        ++ snapshotsFrom full (start + 1) n := by
  unfold snapshotsFrom
  rw [List.range_succ_eq_map, List.filterMap_cons, List.filterMap_map]
  have harg : ∀ j : Nat, start + Nat.succ j + 1 = start + 1 + j + 1 := by omega
  by_cases h : (start + 1) % 50 = 0
  · simp only [Nat.add_zero, h, if_true]
    congr 1
    apply List.filterMap_congr
    intro j _
    simp [Function.comp, harg j]
  · simp only [Nat.add_zero, h, if_false]
    apply List.filterMap_congr
    intro j _
    simp [Function.comp, harg j]

/-- Running the accumulation-plus-backup loop over results that all pass
the keep filter appends them all and writes exactly the scheduled
snapshots. -/
theorem accumulate_go :
    ∀ (rs acc : List ScrapeResult) (snaps : List (List ScrapeResult)),
      (∀ r ∈ rs, keepR r = true) →
      rs.foldl accumulate_step (acc, snaps)
        = (acc ++ rs, snaps ++ snapshotsFrom (acc ++ rs) acc.length rs.length) := by
  intro rs
  induction rs with
  | nil => intro acc snaps _; simp [snapshotsFrom]
  | cons x t ih =>
      intro acc snaps h
      have hx : keepR x = true := h x (List.mem_cons_self x t)
      have ht : ∀ r ∈ t, keepR r = true := fun r hr => h r (List.mem_cons_of_mem x hr)
      have hstep : accumulate_step (acc, snaps) x
          = (acc ++ [x],
             if (acc.length + 1) % 50 = 0 then snaps ++ [acc ++ [x]] else snaps) := by
        unfold accumulate_step
        simp only [hx, if_true, List.length_append, List.length_cons, List.length_nil,
          Nat.zero_add]
        split <;> rfl
      rw [List.foldl_cons, hstep, ih _ _ ht]
      have hfull : (acc ++ [x]) ++ t = acc ++ x :: t := by simp
      have hlen : (acc ++ [x]).length = acc.length + 1 := by simp
      have htake : (acc ++ x :: t).take (acc.length + 1) = acc ++ [x] := by
        rw [List.take_append_eq_append_take]
        simp [List.take_of_length_le, List.take_cons]
      have hsnap : snapshotsFrom (acc ++ x :: t) acc.length (x :: t).length
          = (if (acc.length + 1) % 50 = 0 then [(acc ++ x :: t).take (acc.length + 1)] else [])
            ++ snapshotsFrom (acc ++ x :: t) (acc.length + 1) t.length := by
        rw [List.length_cons]
        exact snapshotsFrom_succ (acc ++ x :: t) acc.length t.length
      rw [hfull, hlen, hsnap, htake]
      by_cases hmod : (acc.length + 1) % 50 = 0
      · simp [hmod]
      · simp [hmod]

/-- The snapshot schedule over counts `1..n` has one entry per positive
multiple of 50 up to `n`, i.e. `n / 50` entries. -/
theorem snapshotsFrom_zero_length (full : List ScrapeResult) :
    ∀ n : Nat, (snapshotsFrom full 0 n).length = n / 50 := by
  intro n
  induction n with
  | zero => rfl
  | succ m ih =>
      unfold snapshotsFrom at ih ⊢
      rw [List.range_succ, List.filterMap_append, List.length_append, ih]
      rw [Nat.succ_div]
      have hdvd : (50 ∣ m + 1) ↔ ((m + 1) % 50 = 0) := @Nat.dvd_iff_mod_eq_zero 50 (m + 1)
      by_cases h : (m + 1) % 50 = 0
      · simp [h, Nat.zero_add, hdvd]
      · simp [h, Nat.zero_add, hdvd]

set_option maxRecDepth 8000 in
/-- C4 counterexample: process one filtered-out result followed by 50 kept
results.  N = 50 results are accumulated — a positive multiple of 50 — yet
2 backup snapshot writes occurred, not N/50 = 1: the `% 50 == 0` check
runs after every *processed* result, so the filtered-out result triggers a
write at accumulation count 0. -/
theorem backup_cadence_cex :
    (phase_accumulate (badR :: List.replicate 50 goodR)).1.length = 50
    ∧ (phase_accumulate (badR :: List.replicate 50 goodR)).2.length = 2 := by
  constructor <;> decide

/-- C4 amended: when every processed result passes the keep filter, the
accumulated list is the whole input and the backup snapshots are exactly
the prefixes at accumulation counts 50, 100, ... — in particular, after N
accumulated results exactly N/50 snapshot writes have occurred, each
holding precisely the results accumulated up to its moment, with no loss,
duplication, or write at another count.  (Without that hypothesis each
filtered-out result re-triggers the check at an unchanged count, as the
counterexample shows.) -/
theorem backup_cadence_characterisation (rs : List ScrapeResult)
    (h : ∀ r ∈ rs, keepR r = true) :
    phase_accumulate rs = (rs, snapshotsFrom rs 0 rs.length)
    ∧ (snapshotsFrom rs 0 rs.length).length = rs.length / 50 := by
  constructor
  · have := accumulate_go rs [] [] h
    simpa [phase_accumulate] using this
  · exact snapshotsFrom_zero_length rs rs.length

set_option maxRecDepth 8000 in
theorem backup_cadence_characterisation_witness :
    (∀ r ∈ List.replicate 50 goodR, keepR r = true)
    ∧ phase_accumulate (List.replicate 50 goodR)
        = (List.replicate 50 goodR,
           snapshotsFrom (List.replicate 50 goodR) 0 (List.replicate 50 goodR).length) :=
  ⟨by decide, (backup_cadence_characterisation (List.replicate 50 goodR) (by decide)).1⟩
